import Mathlib

/-!
Shallow embedding of the blockwise dispatch engine of `src/api.py`:
the type mapper `get_arg_type`, the declaration-time work of the
`blockwise` decorator (with its helper `_simplify`), the device array
descriptor built by `GPUArray.__init__`, and the call-time block
partitioner inside `make_gpu_func`'s `_gpu_func`.
-/

/-- Decidable equality for `Except`, so closed evaluations can be settled
by `decide`. -/
instance exceptDecEq {ε α : Type} [DecidableEq ε] [DecidableEq α] :
    DecidableEq (Except ε α) := fun a b =>
  match a, b with
  | .error e, .error f =>
    match decEq e f with
    | .isTrue h => .isTrue (by rw [h])
    | .isFalse h => .isFalse (fun hh => h (by injection hh))
  | .ok x, .ok y =>
    match decEq x y with
    | .isTrue h => .isTrue (by rw [h])
    | .isFalse h => .isFalse (fun hh => h (by injection hh))
  | .error _, .ok _ => .isFalse (fun hh => Except.noConfusion hh)
  | .ok _, .error _ => .isFalse (fun hh => Except.noConfusion hh)

/-- Python-level error raised by `get_arg_type` on an unsupported type.
The source line is `raise ValueError("Unknown type '%r'" % tp)`, but the
name `tp` is undefined there (the parameter is called `arg`), so CPython
raises a `NameError` while formatting the message, before any
`ValueError` is constructed. -/
inductive PyError where
  | nameError
  deriving DecidableEq, Repr

/-- The Python classes that can appear as a declared element type in the
`types` mapping of a `blockwise` declaration: the `ArrayType` subclasses
`IntArray` and `FloatArray` defined in `src/api.py`, the numpy scalar
types, the Python builtins `int`, `long` and `float`, and `str` as a
representative unsupported class. -/
inductive PyType where
  | intArray
  | floatArray
  | int8
  | uint8
  | int16
  | uint16
  | int32
  | uint32
  | int64
  | uint64
  | float32
  | float64
  | pyInt
  | pyLong
  | pyFloat
  | pyStr
  deriving DecidableEq, Repr, Fintype

/-- `issubclass(arg, ArrayType)`: true exactly for the two `ArrayTy` +
`FloatArray`/`IntArray` subclasses declared in `src/api.py`. -/
def isArrayType : PyType → Bool
  | .intArray => true
  | .floatArray => true
  | _ => false

/-- `arg.__name__` for the `ArrayType` subclasses (used as the native
type name of the `P` marshal code). -/
def className : PyType → String
  | .intArray => "IntArray"
  | .floatArray => "FloatArray"
  | _ => ""

/-- `issubclass(a, b)` restricted to the classes listed in `PyType`.
It is reflexive, and in addition `numpy.float64` inherits from the
Python builtin `float` (a platform-independent CPython/numpy fact; it is
why `isinstance(numpy.float64(1), float)` holds).  On LP64 CPython 2,
`numpy.int64` is `numpy.int_`, which also inherits from `int`; that
platform-specific edge is not modelled here. -/
def issub (a b : PyType) : Bool :=
  a == b || (a == .float64 && b == .pyFloat)

/-- `get_arg_type` from `src/api.py` lines 109-132: the chain of
`issubclass` tests, in source order. -/
def get_arg_type (arg : PyType) : Except PyError (String × String) :=
  if isArrayType arg then .ok ("P", className arg)
  else if issub arg .int8 then .ok ("b", "char")
  else if issub arg .uint8 then .ok ("B", "unsigned char")
  else if issub arg .int16 then .ok ("h", "short")
  else if issub arg .uint16 then .ok ("H", "unsigned short")
  else if issub arg .pyInt || issub arg .int32 then .ok ("i", "int")
  else if issub arg .uint32 then .ok ("I", "unsigned int")
  else if issub arg .pyLong || issub arg .int64 then .ok ("l", "long")
  else if issub arg .uint64 then .ok ("L", "unsigned long")
  else if issub arg .pyFloat || issub arg .float32 then .ok ("f", "float")
  else if issub arg .float64 then .ok ("d", "double")
  else .error .nameError

/-- Errors raised while the `blockwise` decorator runs (declaration
time, `src/api.py` lines 25-47).  Each constructor is one assert or
raise site. -/
inductive RegErr where
  | duplicateVariable (name : String)
  | invalidConfiguration
  | unknownType (e : PyError)
  | duplicateRegistration (name : String)
  deriving DecidableEq, Repr

/-- `_simplify` from `src/api.py` lines 11-19: flattens a mapping whose
keys may be groups of names into a per-name mapping, asserting that no
name is specified more than once.  The error value is the duplicated
name.  (The Python source iterates a dict; the iteration order does not
affect whether a duplicate exists, and the input is modelled as the
association list the caller writes.) -/
def simplify {α : Type} (m : List (List String × α)) :
    Except String (List (String × α)) :=
  m.foldlM (fun simple p =>
    p.1.foldlM (fun simple name =>
      if (simple.lookup name).isSome then .error name
      else .ok (simple ++ [(name, p.2)])) simple) []

/-- The per-variable `get_arg_type` pass of `blockwise`
(`for varname, vartype in types.items(): types[varname] = get_arg_type(vartype)`). -/
def mapTypes : List (String × PyType) →
    Except PyError (List (String × (String × String)))
  | [] => .ok []
  | (n, t) :: rest =>
    match get_arg_type t with
    | .error e => .error e
    | .ok r =>
      match mapTypes rest with
      | .error e => .error e
      | .ok rs => .ok ((n, r) :: rs)

/-- The registry state after a successful declaration: the grown list
of registered names, plus the flattened `blockshapes` and the
`get_arg_type`-mapped `types` stored in the new entry. -/
structure RegEntry where
  registry : List String
  blockshapes : List (String × List Nat)
  types : List (String × (String × String))
  deriving DecidableEq, Repr

/-- The declaration-time work of the `blockwise` decorator
(`src/api.py` lines 25-47) applied to a function named `fname`, with
`registry` holding the names already in `_gpu_funcs`: `_simplify` both
mappings, assert `overlapping or not center_as_origin`, map every
declared type through `get_arg_type`, and reject a duplicate function
name.  Returns the grown registry together with the flattened block
shapes and mapped types.  No check at this stage inspects the
block-shape dimensions. -/
def blockwise_register (registry : List String) (fname : String)
    (blockshapes : List (List String × List Nat))
    (types : List (List String × PyType))
    (overlapping center_as_origin : Bool) :
    Except RegErr RegEntry :=
  match simplify blockshapes with
  | .error n => .error (.duplicateVariable n)
  | .ok bs =>
    match simplify types with
    | .error n => .error (.duplicateVariable n)
    | .ok ts =>
      if overlapping || !center_as_origin then
        match mapTypes ts with
        | .error e => .error (.unknownType e)
        | .ok ts2 =>
          if fname ∈ registry then .error (.duplicateRegistration fname)
          else .ok ⟨registry ++ [fname], bs, ts2⟩
      else .error .invalidConfiguration

/-- numpy element count of an array of shape `S` (`.size`): the product
of the axes; the empty product is 1 (a 0-d array holds one element). -/
def npSize (S : List Nat) : Nat := S.foldr (fun a b => a * b) 1

/-- Errors raised inside `_gpu_func` while computing the block count
(`src/api.py` lines 148-182).  Each constructor records which assert
(or numpy exception) fired, with the argument name its message
reports:
* `centerNotOdd` — the `Block dimensions must be uneven` assert;
* `indivisible` — the `must be an integer multiple of its block size`
  assert;
* `inconsistent` — the `Number of blocks ... doesn't match` assert;
* `broadcastError` — the `ValueError` numpy raises when
  `numpy.array(S) - (numpy.array(B) - 1)` cannot broadcast;
* `zeroDivision` — the `ZeroDivisionError` Python raises in
  `dim1 % dim2` when a block dimension is `0`. -/
inductive PartErr where
  | centerNotOdd (argname : String)
  | indivisible (argname : String)
  | inconsistent (argname : String)
  | broadcastError (argname : String)
  | zeroDivision (argname : String)
  deriving DecidableEq, Repr

/-- Elementwise subtraction of two 1-d numpy integer arrays with numpy's
1-d broadcasting: equal lengths subtract pairwise; a length-1 operand is
stretched; any other length combination raises a broadcast
`ValueError`. -/
def npSub1d (argname : String) (x y : List Int) : Except PartErr (List Int) :=
  if x.length = y.length then .ok (List.zipWith (fun a b => a - b) x y)
  else if y.length = 1 then .ok (x.map (fun a => a - y.headD 0))
  else if x.length = 1 then .ok (y.map (fun b => x.headD 0 - b))
  else .error (.broadcastError argname)

/-- `numpy.array(arg.data.shape) - (numpy.array(shape) - 1)` from
`src/api.py` lines 167-168: the per-axis sliding-window term. -/
def slidingTerms (argname : String) (S B : List Nat) : Except PartErr (List Int) :=
  npSub1d argname (S.map (fun (s : Nat) => (s : Int)))
    (B.map (fun (b : Nat) => (b : Int) - 1))

/-- The divisibility assert of `src/api.py` lines 170-174:
`any(dim1 % dim2 for dim1, dim2 in zip(arg.data.shape, shape))`,
evaluated lazily left to right (`zip` truncates to the shorter tuple;
`dim1 % dim2` raises `ZeroDivisionError` on a zero block dimension; a
nonzero remainder makes the assert fail). -/
def divCheck (argname : String) : List (Nat × Nat) → Option PartErr
  | [] => none
  | (d1, d2) :: rest =>
    if d2 = 0 then some (.zeroDivision argname)
    else if d1 % d2 ≠ 0 then some (.indivisible argname)
    else divCheck argname rest

/-- The per-argument block count of `_gpu_func` (`src/api.py` lines
155-176), for an argument named `argname` with array shape `S` and
declared block shape `B`:

* if `overlapping and shape == (1,) * len(shape)` — the all-ones
  special case — then with `center_as_origin` the parity assert runs
  (on `B`, which is all ones there) and the count is `arg.data.size`;
  without it the count is the product of the sliding-window terms;
* otherwise the divisibility assert runs over `zip(S, B)` and the count
  is `arg.data.size / numpy.array(shape).prod()` (Python 2 floor
  division of nonnegative integers; numpy integer division by zero
  yields 0, matching `Int` division). -/
def blockcountOf (overlapping center_as_origin : Bool) (argname : String)
    (S B : List Nat) : Except PartErr Int :=
  if overlapping && (B == List.replicate B.length 1) then
    if center_as_origin then
      if B.all (fun dim => dim % 2 != 0) then .ok ((npSize S : Int))
      else .error (.centerNotOdd argname)
    else
      match slidingTerms argname S B with
      | .error e => .error e
      | .ok terms => .ok (terms.foldr (fun a b => a * b) 1)
  else
    match divCheck argname (S.zip B) with
    | some e => .error e
    | none => .ok ((npSize S : Int) / (npSize B : Int))

/-- Argument kinds a call can pass positionally: a raw numpy array
(carrying its shape), an already-wrapped `GPUArray` (carrying its data
shape), or a scalar. -/
inductive PyArg where
  | ndarray (shape : List Nat)
  | gpuarray (shape : List Nat)
  | scalar
  deriving DecidableEq, Repr

/-- `arg.data.shape` when the (possibly wrapped) argument is an array. -/
def argShape : PyArg → Option (List Nat)
  | .ndarray S => some S
  | .gpuarray S => some S
  | .scalar => none

/-- The registry fields of one function that `_gpu_func` reads: the
flattened `blockshapes` mapping and the `overlapping` /
`center_as_origin` flags. -/
structure FuncInfo where
  blockshapes : List (String × List Nat)
  overlapping : Bool
  center_as_origin : Bool
  deriving DecidableEq, Repr

/-- The argument loop of `_gpu_func` (`src/api.py` lines 148-186),
modelled on the zipped `(argname, arg)` list with the running `count`
and the list of arguments for which a `GPUArray` was built.  Wrapping a
raw `numpy.ndarray` in `GPUArray` allocates the device descriptor and
uploads the data (`GPUArray.__init__`, lines 79-95) — this happens
before the argument's shapes are inspected, so the wrapped name is
appended to `allocs` first.  `blockshapes.get(argname)` yields the
block shape; `if shape:` skips a missing or empty shape.  `if count:`
compares the new block count with the running one only when the running
one is nonzero.  An `.error (e, allocs)` result is the assert `e`
firing after the device copies `allocs` were made; an `.ok` result
reaches the kernel launch. -/
def runPartition (info : FuncInfo) :
    List (String × PyArg) → Int → List String →
    Except (PartErr × List String) (Int × List String)
  | [], count, allocs => .ok (count, allocs)
  | (argname, a) :: rest, count, allocs =>
    let allocs2 := match a with
      | .ndarray _ => allocs ++ [argname]
      | _ => allocs
    match argShape a with
    | none => runPartition info rest count allocs2
    | some S =>
      match info.blockshapes.lookup argname with
      | none => runPartition info rest count allocs2
      | some B =>
        if B.isEmpty then runPartition info rest count allocs2
        else
          match blockcountOf info.overlapping info.center_as_origin argname S B with
          | .error e => .error (e, allocs2)
          | .ok blockcount =>
            if count == 0 then runPartition info rest blockcount allocs2
            else if count == blockcount then runPartition info rest blockcount allocs2
            else .error (.inconsistent argname, allocs2)

/-- One call of a registered block function: run the argument loop with
`count = 0` and no device copies yet.  On success the result carries
the final block count (appended as the trailing kernel argument before
`splay` and the launch) and the uploaded arguments. -/
def gpuCall (info : FuncInfo) (args : List (String × PyArg)) :
    Except (PartErr × List String) (Int × List String) :=
  runPartition info args 0 []

/-- `numpy.int32(0).nbytes`. -/
def int32size : Nat := 4

/-- `GPUArray.size` (`src/api.py` line 78): a class attribute,
`intpsize + (4 + 4 + 1 + 1) * int32size`, independent of the wrapped
array.  `intpsize` (`numpy.intp(0).nbytes`) is the platform pointer
width and is kept as a parameter. -/
def gpuArraySize (intpsize : Nat) : Nat := intpsize + (4 + 4 + 1 + 1) * int32size

/-- The int32 record written at offset `intpsize` of the descriptor
(`src/api.py` lines 89-95): the array shape zero-padded to 4 entries
(in Python, `(4 - data.ndim) * (0,)` is the empty tuple when
`ndim > 4`, like `List.replicate` with a truncated count), four zero
`offset` entries, then `ndim` and `size`. -/
def descriptorStruct (S : List Nat) : List Nat :=
  S ++ List.replicate (4 - S.length) 0 ++ List.replicate 4 0 ++ [S.length, npSize S]

/-- The `__align__(64)` attribute of the device-side struct in
`_typedef_base` (`src/api.py` line 58).  It appears only in the
generated CUDA typedef; the host-side allocation `GPUArray.size` does
not round to it. -/
def typedefAlign : Nat := 64

/-- Recognizes the `InvalidConfiguration` outcome of a registration. -/
def isInvalidConfig {α : Type} : Except RegErr α → Bool
  | .error .invalidConfiguration => true
  | _ => false

/-- Recognizes the `centerNotOdd` (uneven-block-dimensions) outcome of a
per-argument block count. -/
def isCenterNotOdd : Except PartErr Int → Bool
  | .error (.centerNotOdd _) => true
  | _ => false

/-- Argument names used in concrete evaluations. -/
def nameA : String := "a"

def nameB : String := "b"

def nameF : String := "f"

def nameG : String := "g"

def nameX : String := "x"

def nameY : String := "y"

lemma npSize_cons (a : Nat) (S : List Nat) : npSize (a :: S) = a * npSize S := rfl

lemma foldr_map_cast (S : List Nat) :
    (S.map (fun (s : Nat) => (s : Int))).foldr (fun a b => a * b) 1 = ((npSize S : Nat) : Int) := by
  induction S with
  | nil => rfl
  | cons a t ih =>
    simp only [List.map_cons, List.foldr_cons, ih, npSize_cons]
    push_cast
    ring

lemma zipWith_sub_replicate_zero (x : List Int) :
    List.zipWith (fun a b => a - b) x (List.replicate x.length 0) = x := by
  induction x with
  | nil => rfl
  | cons a t ih => simp [List.replicate_succ, ih]

lemma all_odd_replicate_one (n : Nat) :
    (List.replicate n 1).all (fun dim => dim % 2 != 0) = true := by
  induction n with
  | zero => rfl
  | succ k ih => simp_all [List.replicate_succ]

lemma divCheck_cases (argname : String) (l : List (Nat × Nat)) :
    divCheck argname l = none ∨ divCheck argname l = some (.indivisible argname) ∨
      divCheck argname l = some (.zeroDivision argname) := by
  induction l with
  | nil => exact Or.inl rfl
  | cons p rest ih =>
    obtain ⟨d1, d2⟩ := p
    by_cases h2 : d2 = 0
    · exact Or.inr (Or.inr (by simp [divCheck, h2]))
    · by_cases h1 : d1 % d2 ≠ 0
      · exact Or.inr (Or.inl (by simp [divCheck, h2, h1]))
      · have heq : divCheck argname ((d1, d2) :: rest) = divCheck argname rest := by
          simp [divCheck, h2, h1]
        rw [heq]
        exact ih

lemma divCheck_eq_none_of (argname : String) (l : List (Nat × Nat))
    (hpos : ∀ p ∈ l, 0 < p.2) (hdvd : ∀ p ∈ l, p.2 ∣ p.1) :
    divCheck argname l = none := by
  induction l with
  | nil => rfl
  | cons p rest ih =>
    obtain ⟨d1, d2⟩ := p
    have h2 : 0 < d2 := hpos (d1, d2) (by simp)
    have hd : d2 ∣ d1 := hdvd (d1, d2) (by simp)
    have hm : d1 % d2 = 0 := by
      obtain ⟨k, rfl⟩ := hd
      exact Nat.mul_mod_right d2 k
    simp only [divCheck]
    rw [if_neg (by omega), if_neg (by omega)]
    exact ih (fun p hp => hpos p (by simp [hp])) (fun p hp => hdvd p (by simp [hp]))

lemma divCheck_eq_indivisible_of (argname : String) (l : List (Nat × Nat))
    (hpos : ∀ p ∈ l, 0 < p.2) (h : ∃ p ∈ l, ¬ p.2 ∣ p.1) :
    divCheck argname l = some (.indivisible argname) := by
  induction l with
  | nil =>
    obtain ⟨p, hp, _⟩ := h
    cases hp
  | cons q rest ih =>
    obtain ⟨d1, d2⟩ := q
    have h2 : 0 < d2 := hpos (d1, d2) (by simp)
    simp only [divCheck]
    rw [if_neg (by omega)]
    by_cases hm : d1 % d2 ≠ 0
    · rw [if_pos hm]
    · rw [if_neg hm]
      apply ih (fun p hp => hpos p (by simp [hp]))
      obtain ⟨p, hp, hnd⟩ := h
      rcases List.mem_cons.mp hp with heq | hmem
      · exfalso
        rw [heq] at hnd
        exact hnd (Nat.dvd_of_mod_eq_zero (not_not.mp hm))
      · exact ⟨p, hmem, hnd⟩

lemma npSize_dvd_of (S B : List Nat) (hlen : S.length = B.length)
    (h : ∀ p ∈ S.zip B, p.2 ∣ p.1) : npSize B ∣ npSize S := by
  induction S generalizing B with
  | nil =>
    cases B with
    | nil => simp [npSize]
    | cons b t => simp at hlen
  | cons a s ih =>
    cases B with
    | nil => simp at hlen
    | cons b t =>
      have h1 : b ∣ a := h (a, b) (by simp)
      have h2 : npSize t ∣ npSize s :=
        ih t (by simpa using hlen) (fun p hp => h p (by simp [hp]))
      simpa [npSize_cons] using mul_dvd_mul h1 h2

lemma npSub1d_shape (argname : String) (x y : List Int) :
    (∃ l, npSub1d argname x y = .ok l) ∨ npSub1d argname x y = .error (.broadcastError argname) := by
  unfold npSub1d
  split
  · exact Or.inl ⟨_, rfl⟩
  · split
    · exact Or.inl ⟨_, rfl⟩
    · split
      · exact Or.inl ⟨_, rfl⟩
      · exact Or.inr rfl

lemma slidingTerms_shape (argname : String) (S B : List Nat) :
    (∃ l, slidingTerms argname S B = .ok l) ∨
      slidingTerms argname S B = .error (.broadcastError argname) := by
  unfold slidingTerms
  exact npSub1d_shape argname _ _

lemma blockcountOf_else (o c : Bool) (argname : String) (S B : List Nat)
    (hg : (o && (B == List.replicate B.length 1)) = false) :
    blockcountOf o c argname S B =
      match divCheck argname (S.zip B) with
      | some e => .error e
      | none => .ok ((npSize S : Int) / (npSize B : Int)) := by
  unfold blockcountOf
  rw [if_neg (by simp [hg])]

lemma cast_nat_div (m n : Nat) : ((m / n : Nat) : Int) = (m : Int) / (n : Int) := by
  norm_cast

lemma blockcountOf_allones (argname : String) (T : List Nat) :
    blockcountOf true false argname T (List.replicate T.length 1) = .ok ((npSize T : Int)) := by
  unfold blockcountOf
  rw [if_pos (by simp)]
  rw [if_neg (by simp)]
  have hterms : slidingTerms argname T (List.replicate T.length 1) =
      .ok (T.map (fun (s : Nat) => (s : Int))) := by
    unfold slidingTerms npSub1d
    rw [if_pos (by simp)]
    have hrep : (List.replicate T.length (1 : Nat)).map (fun (b : Nat) => (b : Int) - 1) =
        List.replicate (T.map (fun (s : Nat) => (s : Int))).length 0 := by
      simp [List.map_replicate]
    rw [hrep, zipWith_sub_replicate_zero]
  rw [hterms]
  simp [foldr_map_cast]

lemma blockcountOf_never_centerNotOdd (o c : Bool) (argname : String) (S B : List Nat) :
    isCenterNotOdd (blockcountOf o c argname S B) = false := by
  unfold blockcountOf
  by_cases hg : (o && (B == List.replicate B.length 1)) = true
  · rw [if_pos hg]
    have hB : B = List.replicate B.length 1 := by
      have h2 := (Bool.and_eq_true _ _).mp hg
      exact eq_of_beq h2.2
    cases c with
    | true =>
      rw [if_pos rfl]
      rw [hB, all_odd_replicate_one]
      simp [isCenterNotOdd]
    | false =>
      rw [if_neg (by simp)]
      rcases slidingTerms_shape argname S B with ⟨l, hl⟩ | hl <;>
        rw [hl] <;> simp [isCenterNotOdd]
  · rw [if_neg hg]
    rcases divCheck_cases argname (S.zip B) with h | h | h <;> rw [h] <;> simp [isCenterNotOdd]

/-- C10: `get_arg_type` maps the Python builtin `float` to marshal code
`f` with native type name `float` (the 32-bit mapping, via the
`(float, numpy.float32)` test), and the builtin `int` to `i` with
native name `int` (via the `(int, numpy.int32)` test) — narrower than
the 64-bit host representations of these scalars. -/
theorem python_scalar_mapping :
    get_arg_type .pyFloat = .ok ("f", "float") ∧ get_arg_type .pyInt = .ok ("i", "int") :=
  ⟨rfl, rfl⟩

/-- C8: the fixed table is violated by the code on two points.  First,
`numpy.float64` inherits from the Python builtin `float`, and the
`(float, numpy.float32)` test precedes the `float64` test, so
`get_arg_type(numpy.float64)` returns `('f', 'float')` rather than the
table's `('d', 'double')`; indeed no type at all can reach the
`('d', 'double')` row.  Second, for an unsupported type the raise
statement `raise ValueError("Unknown type '%r'" % tp)` references the
undefined name `tp`, so a `NameError` is raised instead of an
`UnsupportedType` error naming the offending value. -/
theorem type_mapper_bug :
    get_arg_type .float64 = .ok ("f", "float") ∧
    get_arg_type .pyStr = .error .nameError ∧
    (∀ t : PyType, (get_arg_type t == .ok ("d", "double")) = false) :=
  ⟨rfl, rfl, by decide⟩

/-- C1: with `overlapping = false` the partitioner always takes the
divisibility branch.  For equal ranks and positive block dimensions:
if every axis of `S` is an exact multiple of the corresponding axis of
`B`, the block count is `size(S) / size(B)` (an exact division); if
some axis is not an exact multiple, the argument fails with the
`IndivisibleBlockShape` assert. -/
theorem nonoverlapping_blockcount (c : Bool) (argname : String) (S B : List Nat)
    (hlen : S.length = B.length) (hpos : ∀ d ∈ B, 0 < d) :
    ((∀ p ∈ S.zip B, p.2 ∣ p.1) →
      blockcountOf false c argname S B = .ok ((npSize S / npSize B : Nat) : Int)
        ∧ npSize B ∣ npSize S)
    ∧ ((∃ p ∈ S.zip B, ¬ p.2 ∣ p.1) →
      blockcountOf false c argname S B = .error (.indivisible argname)) := by
  have hzip : ∀ p ∈ S.zip B, 0 < p.2 := by
    intro p hp
    obtain ⟨a, b⟩ := p
    exact hpos b (List.of_mem_zip hp).2
  have hg : (false && (B == List.replicate B.length 1)) = false := by simp
  constructor
  · intro hdvd
    refine ⟨?_, npSize_dvd_of S B hlen hdvd⟩
    rw [blockcountOf_else false c argname S B hg,
      divCheck_eq_none_of argname _ hzip hdvd, cast_nat_div]
  · intro hex
    rw [blockcountOf_else false c argname S B hg,
      divCheck_eq_indivisible_of argname _ hzip hex]

/-- C1 witness: a concrete divisible instance, `S = (4, 6)`,
`B = (2, 3)`: block count `24 / 6 = 4`. -/
theorem nonoverlapping_blockcount_witness :
    blockcountOf false false nameX [4, 6] [2, 3] = .ok 4 ∧ npSize [2, 3] ∣ npSize [4, 6] := by
  have h := (nonoverlapping_blockcount false nameX [4, 6] [2, 3] (by decide) (by decide)).1
    (by decide)
  exact ⟨by rw [h.1]; decide, h.2⟩

/-- C2 counterexample: `overlapping = true`, `center_as_origin = false`,
array shape `S = (4,)`, block shape `B = (2,)`.  The claim's
sliding-window product is `4 - (2 - 1) = 3`, but the code computes that
product only when `B` is all ones; for `B = (2,)` it takes the
divisibility branch and yields `4 / 2 = 2`. -/
theorem overlapping_noncentered_counterexample :
    blockcountOf true false nameX [4] [2] = .ok 2 ∧
    blockcountOf true false nameX [4] [2] ≠ .ok 3 := by
  constructor
  · decide
  · decide

/-- C2 amended: with `overlapping = true` and `center_as_origin = false`,
the sliding-window product is computed only in the all-ones special
case, where it equals `size(S)`; for every block shape that is not all
ones the code instead applies the non-overlapping rule — every zipped
axis of `S` must be divisible by the corresponding axis of `B` (else
the `IndivisibleBlockShape` assert fires) and the block count is
`size(S)` floor-divided by `size(B)`. -/
theorem overlapping_noncentered_amended (argname : String) (S B : List Nat)
    (hpos : ∀ d ∈ B, 0 < d) (hne : B ≠ List.replicate B.length 1) :
    blockcountOf true false argname S B =
      (if ∀ p ∈ S.zip B, p.2 ∣ p.1 then .ok ((npSize S : Int) / (npSize B : Int))
       else .error (.indivisible argname))
    ∧ (∀ T : List Nat,
        blockcountOf true false argname T (List.replicate T.length 1) = .ok ((npSize T : Int))) := by
  have hzip : ∀ p ∈ S.zip B, 0 < p.2 := by
    intro p hp
    obtain ⟨a, b⟩ := p
    exact hpos b (List.of_mem_zip hp).2
  have hg : (true && (B == List.replicate B.length 1)) = false := by
    simp [beq_eq_false_iff_ne.mpr hne]
  constructor
  · rw [blockcountOf_else true false argname S B hg]
    by_cases hall : ∀ p ∈ S.zip B, p.2 ∣ p.1
    · rw [divCheck_eq_none_of argname _ hzip hall, if_pos hall]
    · rw [divCheck_eq_indivisible_of argname _ hzip (by push_neg at hall; exact hall),
        if_neg hall]
  · exact fun T => blockcountOf_allones argname T

/-- C2 witness: the amended rule at `S = (4,)`, `B = (2,)` (divisible,
count 2) and the all-ones case at `T = (5, 7)` (count 35). -/
theorem overlapping_noncentered_witness :
    blockcountOf true false nameX [4] [2] = .ok 2 ∧
    blockcountOf true false nameX [5, 7] (List.replicate 2 1) = .ok 35 := by
  have h := overlapping_noncentered_amended nameX [4] [2] (by decide) (by decide)
  constructor
  · rw [h.1]
    decide
  · have h2 := h.2 [5, 7]
    simpa using h2

/-- C5 counterexample: `overlapping = true`, `center_as_origin = false`,
`S = (2,)`, `B = (3,)` — the block is larger than the array, so the
claim demands a `BlockTooLarge` failure.  The code defines no such
error: this input takes the divisibility branch and fails with the
`IndivisibleBlockShape` assert (whose message even speaks of
non-overlapping blocks). -/
theorem block_too_large_counterexample :
    blockcountOf true false nameX [2] [3] = .error (.indivisible nameX) := by
  decide

/-- C5 amended: with `overlapping = true`, `center_as_origin = false`
and positive block dimensions, whenever some zipped axis has
`0 < S[i] < B[i]` (an oversized block on a nonempty axis), the block
shape is not all ones, so the call fails — but with the
`IndivisibleBlockShape` assert (`S[i] mod B[i] = S[i] ≠ 0`), not with a
`BlockTooLarge` error, which does not exist in the code. -/
theorem block_too_large_amended (argname : String) (S B : List Nat)
    (hpos : ∀ d ∈ B, 0 < d)
    (h : ∃ p ∈ S.zip B, 0 < p.1 ∧ p.1 < p.2) :
    blockcountOf true false argname S B = .error (.indivisible argname) := by
  obtain ⟨p, hp, h0, hlt⟩ := h
  have hzip : ∀ q ∈ S.zip B, 0 < q.2 := by
    intro q hq
    obtain ⟨a, b⟩ := q
    exact hpos b (List.of_mem_zip hq).2
  have hne : B ≠ List.replicate B.length 1 := by
    intro habs
    have hmem : p.2 ∈ B := by
      obtain ⟨a, b⟩ := p
      exact (List.of_mem_zip hp).2
    rw [habs] at hmem
    have := List.eq_of_mem_replicate hmem
    omega
  have hg : (true && (B == List.replicate B.length 1)) = false := by
    simp [beq_eq_false_iff_ne.mpr hne]
  rw [blockcountOf_else true false argname S B hg]
  rw [divCheck_eq_indivisible_of argname _ hzip
    ⟨p, hp, fun hd => absurd (Nat.le_of_dvd h0 hd) (by omega)⟩]

/-- C5 witness: `S = (5, 2)`, `B = (5, 4)` — the second axis has
`0 < 2 < 4`, and the call fails with the `IndivisibleBlockShape`
assert. -/
theorem block_too_large_witness :
    blockcountOf true false nameY [5, 2] [5, 4] = .error (.indivisible nameY) :=
  block_too_large_amended nameY [5, 2] [5, 4] (by decide) ⟨(2, 4), by decide, by decide⟩

/-- C7 counterexample: the registered block shape `B = (2,)` has rank 1
and the array `S = (4, 4)` has rank 2, yet the call does not fail at
all — `zip` silently truncates to the common axes and the call
computes block count `16 / 2 = 8`.  No `ShapeMismatch` error exists in
the code. -/
theorem rank_mismatch_counterexample :
    gpuCall ⟨[(nameX, [2])], false, false⟩ [(nameX, PyArg.ndarray [4, 4])] = .ok (8, [nameX]) := by
  decide

/-- C7 amended: rank disagreement between `S` and `B` is not checked.
In the divisibility branch (taken whenever the all-ones overlapping
case does not apply; stated here for `overlapping = false`),
`zip(S, B)` truncates to the shorter tuple, only the common axes are
tested for divisibility, and the count is `size(S)` floor-divided by
`size(B)` over the full shapes.  Only the all-ones overlapping branch
can fail on ranks, via numpy broadcasting, and only when both ranks
exceed 1 and differ. -/
theorem rank_mismatch_amended (c : Bool) (argname : String) (S B : List Nat)
    (hpos : ∀ d ∈ B, 0 < d) :
    blockcountOf false c argname S B =
      (if ∀ p ∈ S.zip B, p.2 ∣ p.1 then .ok ((npSize S : Int) / (npSize B : Int))
       else .error (.indivisible argname))
    ∧ (∀ (argname2 : String) (T : List Nat) (n : Nat),
        1 < T.length → 1 < n → T.length ≠ n →
        blockcountOf true false argname2 T (List.replicate n 1) =
          .error (.broadcastError argname2)) := by
  have hzip : ∀ p ∈ S.zip B, 0 < p.2 := by
    intro p hp
    obtain ⟨a, b⟩ := p
    exact hpos b (List.of_mem_zip hp).2
  have hg : (false && (B == List.replicate B.length 1)) = false := by simp
  constructor
  · rw [blockcountOf_else false c argname S B hg]
    by_cases hall : ∀ p ∈ S.zip B, p.2 ∣ p.1
    · rw [divCheck_eq_none_of argname _ hzip hall, if_pos hall]
    · rw [divCheck_eq_indivisible_of argname _ hzip (by push_neg at hall; exact hall),
        if_neg hall]
  · intro argname2 T n hT hn hne
    unfold blockcountOf
    rw [if_pos (by simp)]
    rw [if_neg (by simp)]
    have hterms : slidingTerms argname2 T (List.replicate n 1) =
        .error (.broadcastError argname2) := by
      unfold slidingTerms npSub1d
      rw [if_neg (by simpa using hne), if_neg (by simpa using by omega : ¬ _ = 1),
        if_neg (by simpa using by omega : ¬ _ = 1)]
    rw [hterms]

/-- C7 witness: the divisibility branch succeeds on mismatched ranks
(`S = (4, 4)`, `B = (2,)` gives count 8), while all-ones broadcasting
fails when both ranks exceed 1 (`T = (3, 3)`, `B = (1, 1, 1)`). -/
theorem rank_mismatch_witness :
    blockcountOf false false nameX [4, 4] [2] = .ok 8 ∧
    blockcountOf true false nameY [3, 3] (List.replicate 3 1) =
      .error (.broadcastError nameY) := by
  have h := rank_mismatch_amended false nameX [4, 4] [2] (by decide)
  constructor
  · rw [h.1]
    decide
  · exact h.2 nameY [3, 3] 3 (by decide) (by decide) (by decide)

/-- C3 counterexample: declaring a block function with
`center_as_origin = true`, `overlapping = true` and the even block
shape `(2, 2)` succeeds — `blockwise` checks only
`overlapping or not center_as_origin` and never inspects the block
dimensions, so no `InvalidConfiguration` is raised at declaration
time. -/
theorem even_blockshape_registration_counterexample :
    blockwise_register [] nameF [([nameX], [2, 2])] [([nameX], PyType.intArray)] true true =
      .ok ⟨[nameF], [(nameX, [2, 2])], [(nameX, ("P", "IntArray"))]⟩ := by
  decide

/-- C3 amended: at declaration time `InvalidConfiguration` arises
exactly from the `overlapping or not center_as_origin` assert — with
`overlapping = false` and `center_as_origin = true` registration fails
with it (once `_simplify` succeeds), and with `overlapping = true` it
is never raised, whatever the block shapes.  The odd-dimension
requirement is instead an assert at call time, inside the all-ones
branch of the partitioner, where every dimension is 1 and hence odd —
so it can never fire, and an even block shape is never rejected. -/
theorem even_blockshape_registration_amended
    (registry : List String) (fname : String)
    (blockshapes : List (List String × List Nat)) (types : List (List String × PyType))
    (bs : List (String × List Nat)) (ts : List (String × PyType))
    (h1 : simplify blockshapes = .ok bs) (h2 : simplify types = .ok ts) :
    blockwise_register registry fname blockshapes types false true = .error .invalidConfiguration
    ∧ (∀ c : Bool, isInvalidConfig (blockwise_register registry fname blockshapes types true c) = false)
    ∧ (∀ (o c : Bool) (argname : String) (S B : List Nat),
        isCenterNotOdd (blockcountOf o c argname S B) = false) := by
  refine ⟨?_, ?_, fun o c argname S B => blockcountOf_never_centerNotOdd o c argname S B⟩
  · simp [blockwise_register, h1, h2]
  · intro c
    simp only [blockwise_register, h1, h2]
    rw [if_pos (by simp)]
    rcases hmt : mapTypes ts with e | ts2
    · simp [isInvalidConfig]
    · by_cases hf : fname ∈ registry <;> simp [hf, isInvalidConfig]

/-- C3 witness: with the concrete even-shaped declaration, registration
with `overlapping = false` fails with `InvalidConfiguration`, while
with `overlapping = true` it does not. -/
theorem even_blockshape_registration_witness :
    blockwise_register [] nameG [([nameX], [2, 2])] [([nameX], PyType.intArray)] false true =
      .error .invalidConfiguration ∧
    isInvalidConfig
      (blockwise_register [] nameG [([nameX], [2, 2])] [([nameX], PyType.intArray)] true true) =
      false := by
  have h := even_blockshape_registration_amended [] nameG [([nameX], [2, 2])]
    [([nameX], PyType.intArray)] [(nameX, [2, 2])] [(nameX, PyType.intArray)] rfl rfl
  exact ⟨h.1, h.2.1 true⟩

/-- C4 counterexample: a call whose single argument has the indivisible
shape `S = (3,)` against block shape `B = (2,)` fails with the
`IndivisibleBlockShape` assert, but only after that argument was
wrapped in `GPUArray` — i.e. after its descriptor was allocated on the
device and its data uploaded (`allocs = [x]`, not `[]`). -/
theorem alloc_before_partition_error_counterexample :
    gpuCall ⟨[(nameX, [2])], false, false⟩ [(nameX, PyArg.ndarray [3])] =
      .error (.indivisible nameX, [nameX]) ∧ [nameX] ≠ ([] : List String) := by
  constructor
  · decide
  · decide

/-- C4 amended: a partitioning error does abort the call before the
trailing block-count argument, the `splay` sizing and the kernel
launch, but not before device allocation: each raw array argument is
wrapped in `GPUArray` — allocating its device descriptor and uploading
its data — before its shapes are examined, so when the block-count
computation for an `ndarray` argument fails, that argument (after all
previously uploaded ones) has already been allocated and uploaded. -/
theorem alloc_before_partition_error_amended (info : FuncInfo) (argname : String)
    (S B : List Nat) (rest : List (String × PyArg)) (count : Int) (allocs : List String)
    (e : PartErr)
    (h1 : info.blockshapes.lookup argname = some B) (h2 : B.isEmpty = false)
    (h3 : blockcountOf info.overlapping info.center_as_origin argname S B = .error e) :
    runPartition info ((argname, PyArg.ndarray S) :: rest) count allocs =
      .error (e, allocs ++ [argname]) := by
  simp [runPartition, argShape, h1, h2, h3]

/-- C4 witness: the failing call of the counterexample, entered with a
previously uploaded argument already in `allocs`. -/
theorem alloc_before_partition_error_witness :
    runPartition ⟨[(nameX, [2])], false, false⟩ [(nameX, PyArg.ndarray [3])] 0 [nameA] =
      .error (.indivisible nameX, [nameA, nameX]) := by
  have h := alloc_before_partition_error_amended ⟨[(nameX, [2])], false, false⟩ nameX [3] [2]
    [] 0 [nameA] (.indivisible nameX) rfl rfl (by decide)
  simpa using h

/-- C6 counterexample: two block-shaped arguments, the first of shape
`(0,)` with block `(1,)` (block count 0) and the second of shape `(2,)`
with block `(1,)` (block count 2).  The counts differ, yet the call
succeeds with final count 2: `if count:` skips the consistency assert
whenever the established count is zero. -/
theorem inconsistent_blockcount_zero_counterexample :
    gpuCall ⟨[(nameA, [1]), (nameB, [1])], false, false⟩
      [(nameA, PyArg.ndarray [0]), (nameB, PyArg.ndarray [2])] = .ok (2, [nameA, nameB]) := by
  decide

/-- C6 amended: a block-shaped argument is compared against the running
count only when that count is nonzero — then a differing block count
fails with the `InconsistentBlockCount` assert naming the argument;
when the running count is zero, the new count silently replaces it and
the call continues. -/
theorem inconsistent_blockcount_amended (info : FuncInfo) (argname : String)
    (S B : List Nat) (rest : List (String × PyArg)) (count b : Int) (allocs : List String)
    (h1 : info.blockshapes.lookup argname = some B) (h2 : B.isEmpty = false)
    (h3 : blockcountOf info.overlapping info.center_as_origin argname S B = .ok b) :
    (count ≠ 0 → count ≠ b →
      runPartition info ((argname, PyArg.ndarray S) :: rest) count allocs =
        .error (.inconsistent argname, allocs ++ [argname]))
    ∧ (count = 0 →
      runPartition info ((argname, PyArg.ndarray S) :: rest) count allocs =
        runPartition info rest b (allocs ++ [argname])) := by
  constructor
  · intro hc hcb
    simp [runPartition, argShape, h1, h2, h3, hc, hcb]
  · intro hc
    simp [runPartition, argShape, h1, h2, h3, hc]

/-- C6 witness: running count 2 meeting an argument whose block count
is 3 (`S = (6,)`, `B = (2,)`) fails with `InconsistentBlockCount`;
running count 0 meeting the same argument continues with count 3. -/
theorem inconsistent_blockcount_witness :
    runPartition ⟨[(nameA, [2])], false, false⟩ [(nameA, PyArg.ndarray [6])] 2 [] =
      .error (.inconsistent nameA, [nameA]) ∧
    runPartition ⟨[(nameA, [2])], false, false⟩ [(nameA, PyArg.ndarray [6])] 0 [] =
      runPartition ⟨[(nameA, [2])], false, false⟩ [] 3 [nameA] := by
  have h := inconsistent_blockcount_amended ⟨[(nameA, [2])], false, false⟩ nameA [6] [2]
    [] 2 3 [] rfl rfl (by decide)
  have h0 := inconsistent_blockcount_amended ⟨[(nameA, [2])], false, false⟩ nameA [6] [2]
    [] 0 3 [] rfl rfl (by decide)
  exact ⟨by simpa using h.1 (by decide) (by decide), by simpa using h0.2 rfl⟩

/-- C9 counterexample: with 8-byte pointers the descriptor allocation
`GPUArray.size` is `8 + 10 * 4 = 48` bytes, and `48` is not a multiple
of 64 — the allocated size is not rounded up to a 64-byte alignment
(that rounding would give 64). -/
theorem descriptor_size_counterexample :
    gpuArraySize 8 = 48 ∧ gpuArraySize 8 % typedefAlign = 48 := by
  decide

/-- C9 amended: the allocated descriptor size is fixed and identical
for every array regardless of rank — pointer width plus 10 int32
fields — with no rounding to a 64-byte boundary (the 64-byte alignment
exists only as the `__align__(64)` attribute of the generated
device-side typedef).  For every array of rank at most 4, the int32
record written into the descriptor has exactly 10 fields and exactly
fills the allocation. -/
theorem descriptor_size_amended (S : List Nat) (intpsize : Nat) (h : S.length ≤ 4) :
    (descriptorStruct S).length = 10
    ∧ gpuArraySize intpsize = intpsize + 10 * int32size
    ∧ intpsize + int32size * (descriptorStruct S).length = gpuArraySize intpsize := by
  have hlen : (descriptorStruct S).length = 10 := by
    simp only [descriptorStruct, List.length_append, List.length_replicate,
      List.length_cons, List.length_nil]
    omega
  refine ⟨hlen, by simp [gpuArraySize, int32size], ?_⟩
  rw [hlen]
  simp [gpuArraySize, int32size]

/-- C9 witness: a rank-2 array and a rank-0 array get descriptors of
the same fixed size, 48 bytes with 8-byte pointers. -/
theorem descriptor_size_witness :
    (descriptorStruct [3, 4]).length = 10 ∧
    8 + int32size * (descriptorStruct [3, 4]).length = gpuArraySize 8 := by
  have h := descriptor_size_amended [3, 4] 8 (by decide)
  exact ⟨h.1, h.2.2⟩
